import Mathlib

/-!
Shallow embedding of the Seller domain model of the nexora-backend
repository (src/src/models/Seller.js) and proofs of the specified
properties of its lifecycle, statistics and payout operations.

Modelling conventions:
* JS numbers are modelled as `ℚ` (the values the claims exercise are
  small decimals, exactly representable).
* Dates are modelled as an abstract instant `Int`; each method receives
  the current instant `t` standing for `new Date()`.
* A JS instance method mutates `this` and then persists via `save()`.
  We model a method as a function `... → Seller → MethodResult` where
  `MethodResult = Except String Unit × Seller`: the first component is
  the outcome (`Except.error msg` models `throw new Error(msg)`), and
  the second component is the in-memory entity after the call — in the
  error case this carries exactly the mutations executed before the
  `throw`, since a JS throw does not roll back prior assignments.
  The `save()` pre-hook sets `lastActivityAt` on every successful save;
  error paths never reach `save()`.
-/

/-- Seller lifecycle status: `status` enum of the schema. -/
inductive SStatus where
  | pending
  | approved
  | blocked
  | suspended
  deriving Repr, DecidableEq

/-- The `businessType` enum of the schema (`'local' | 'dropship'`). -/
inductive BusinessType where
  | localShop
  | dropship
  deriving Repr, DecidableEq

/-- The `bankDetails` sub-record. -/
structure BankDetails where
  accountHolderName : Option String := none
  accountNumber : Option String := none
  ifscCode : Option String := none
  bankName : Option String := none
  branchName : Option String := none
  upiId : Option String := none
  isVerified : Bool := false
  verifiedAt : Option Int := none
  deriving Repr, DecidableEq

/-- Partial bank-details object passed to `updateBankDetails`: each
field is `some v` when the caller's object carries the key. This
includes `isVerified` and `verifiedAt`, which a caller may attempt to
set. -/
structure BankDetailsUpdate where
  accountHolderName : Option String := none
  accountNumber : Option String := none
  ifscCode : Option String := none
  bankName : Option String := none
  branchName : Option String := none
  upiId : Option String := none
  isVerified : Option Bool := none
  verifiedAt : Option (Option Int) := none
  deriving Repr, DecidableEq

/-- The `statistics` sub-record. -/
structure Statistics where
  totalProducts : ℚ := 0
  activeProducts : ℚ := 0
  totalOrders : ℚ := 0
  completedOrders : ℚ := 0
  cancelledOrders : ℚ := 0
  totalEarnings : ℚ := 0
  pendingEarnings : ℚ := 0
  withdrawnAmount : ℚ := 0
  averageRating : ℚ := 0
  totalRatings : ℚ := 0
  responseRate : ℚ := 0
  shippingAccuracy : ℚ := 0
  deriving Repr, DecidableEq

/-- The `documentVerification` sub-record. -/
structure DocumentVerification where
  gstVerified : Bool := false
  panVerified : Bool := false
  bankVerified : Bool := false
  addressVerified : Bool := false
  documentSubmittedAt : Option Int := none
  documentVerifiedAt : Option Int := none
  deriving Repr, DecidableEq

/-- The Seller entity: the fields of the schema touched by the
instance methods under verification. -/
structure Seller where
  businessType : BusinessType := .localShop
  commissionRate : ℚ := 5
  codEnabled : Bool := true
  codCommissionRate : ℚ := 0
  status : SStatus := .pending
  statusReason : Option String := none
  statusChangedAt : Option Int := none
  statusChangedBy : Option String := none
  bankDetails : BankDetails := {}
  statistics : Statistics := {}
  documentVerification : DocumentVerification := {}
  approvedAt : Option Int := none
  lastActivityAt : Option Int := none
  suspendedUntil : Option Int := none
  isActive : Bool := true
  deriving Repr, DecidableEq

/-- Outcome of an instance method: the `Except` value models a normal
return vs. a thrown `Error(msg)`; the `Seller` is the in-memory entity
after the call (mutations before a throw are kept, as in JS). -/
abbrev MethodResult := Except String Unit × Seller

/-- JS truthiness of an optional string argument: `!reason` is true for
`undefined`/`null` (here `none`) and for the empty string. -/
def strTruthy : Option String → Bool
  | none => false
  | some r => r != ""

/-- JS `reason || default`: the argument when truthy, else the default. -/
def strOr (r : Option String) (d : String) : String :=
  match r with
  | none => d
  | some v => if v = "" then d else v

/-- Embeds `suspensionDate.setDate(getDate() + daysCount)`: calendar-day
arithmetic, abstracted to adding `daysCount` day-units to the instant.
No claim depends on the concrete value, only on presence/absence. -/
def addDays (t : Int) (daysCount : Int) : Int :=
  t + daysCount

/-- JS `Math.round`: round half toward positive infinity. -/
def jsRound (x : ℚ) : Int :=
  ⌊x + 1 / 2⌋

/-- Embeds `Math.round(x * 100) / 100`: round to 2 decimal places, half-up at
the 2nd decimal for the non-negative values that arise here. -/
def roundTo2 (x : ℚ) : ℚ :=
  (jsRound (x * 100) : ℚ) / 100

/-- Embeds `sellerSchema.methods.approve(approvedBy, reason = '')`. -/
def approve (approvedBy : String) (reason : Option String) (t : Int) (s : Seller) :
    MethodResult :=
  (Except.ok (), { s with
    status := .approved
    approvedAt := some t
    statusChangedAt := some t
    statusChangedBy := some approvedBy
    statusReason := some (strOr reason "Seller approved by admin")
    isActive := true
    lastActivityAt := some t })

/-- Embeds `sellerSchema.methods.block(blockedBy, reason)`: throws when
`!reason`. -/
def block (blockedBy : String) (reason : Option String) (t : Int) (s : Seller) :
    MethodResult :=
  if strTruthy reason = false then
    (Except.error "Reason for blocking is required", s)
  else
    (Except.ok (), { s with
      status := .blocked
      isActive := false
      statusChangedAt := some t
      statusChangedBy := some blockedBy
      statusReason := reason
      lastActivityAt := some t })

/-- Embeds `sellerSchema.methods.suspend(suspendedBy, daysCount, reason)`. -/
def suspend (suspendedBy : String) (daysCount : Int) (reason : Option String)
    (t : Int) (s : Seller) : MethodResult :=
  (Except.ok (), { s with
    status := .suspended
    suspendedUntil := some (addDays t daysCount)
    statusChangedAt := some t
    statusChangedBy := some suspendedBy
    statusReason := reason
    lastActivityAt := some t })

/-- Embeds `sellerSchema.methods.unsuspend(unsuspendedBy)`. -/
def unsuspend (unsuspendedBy : String) (t : Int) (s : Seller) : MethodResult :=
  (Except.ok (), { s with
    status := .approved
    suspendedUntil := none
    statusChangedAt := some t
    statusChangedBy := some unsuspendedBy
    statusReason := some "Seller unsuspended by admin"
    isActive := true
    lastActivityAt := some t })

/-- Embeds `sellerSchema.methods.updateCommissionRate(newRate, updatedBy)`. -/
def updateCommissionRate (newRate : ℚ) (updatedBy : String) (t : Int) (s : Seller) :
    MethodResult :=
  if newRate < 0 ∨ newRate > 100 then
    (Except.error "Commission rate must be between 0 and 100", s)
  else
    (Except.ok (), { s with
      commissionRate := newRate
      lastActivityAt := some t })

/-- Embeds `sellerSchema.methods.updateCODSettings(enabled, codRate = null)`:
`this.codEnabled = enabled` is executed first; the range check on
`codRate` only runs afterwards, so a thrown range error leaves
`codEnabled` already set to `enabled` on the in-memory entity. -/
def updateCODSettings (enabled : Bool) (codRate : Option ℚ) (t : Int) (s : Seller) :
    MethodResult :=
  let s1 := { s with codEnabled := enabled }
  match codRate with
  | none => (Except.ok (), { s1 with lastActivityAt := some t })
  | some r =>
    if r < 0 ∨ r > 100 then
      (Except.error "COD commission rate must be between 0 and 100", s1)
    else
      (Except.ok (), { s1 with
        codCommissionRate := r
        lastActivityAt := some t })

/-- Embeds `sellerSchema.methods.updateBankDetails(bankData)`: spread of the
old record, then the update object, then the forced
`isVerified: false, verifiedAt: null` keys (last spread key wins). -/
def updateBankDetails (bankData : BankDetailsUpdate) (t : Int) (s : Seller) :
    MethodResult :=
  (Except.ok (), { s with
    bankDetails := {
      accountHolderName :=
        match bankData.accountHolderName with
        | some v => some v
        | none => s.bankDetails.accountHolderName
      accountNumber :=
        match bankData.accountNumber with
        | some v => some v
        | none => s.bankDetails.accountNumber
      ifscCode :=
        match bankData.ifscCode with
        | some v => some v
        | none => s.bankDetails.ifscCode
      bankName :=
        match bankData.bankName with
        | some v => some v
        | none => s.bankDetails.bankName
      branchName :=
        match bankData.branchName with
        | some v => some v
        | none => s.bankDetails.branchName
      upiId :=
        match bankData.upiId with
        | some v => some v
        | none => s.bankDetails.upiId
      isVerified := false
      verifiedAt := none }
    lastActivityAt := some t })

/-- Embeds `sellerSchema.methods.decrementProductCount(count = 1)`. -/
def decrementProductCount (count : ℚ) (t : Int) (s : Seller) : MethodResult :=
  (Except.ok (), { s with
    statistics := { s.statistics with
      totalProducts := max 0 (s.statistics.totalProducts - count)
      activeProducts := max 0 (s.statistics.activeProducts - count) }
    lastActivityAt := some t })

/-- Embeds `sellerSchema.methods.updateRating(newRating, increment = true)`:
the `increment` parameter is accepted but unused in the source. -/
def updateRating (newRating : ℚ) (increment : Bool) (t : Int) (s : Seller) :
    MethodResult :=
  if newRating < 0 ∨ newRating > 5 then
    (Except.error "Rating must be between 0 and 5", s)
  else
    let totalRatings := s.statistics.totalRatings + 1
    let currentTotal := s.statistics.averageRating * s.statistics.totalRatings
    let newAverage := (currentTotal + newRating) / totalRatings
    (Except.ok (), { s with
      statistics := { s.statistics with
        averageRating := roundTo2 newAverage
        totalRatings := totalRatings }
      lastActivityAt := some t })

/-- Embeds `sellerSchema.methods.addEarnings(amount, isPending = true)`. -/
def addEarnings (amount : ℚ) (isPending : Bool) (t : Int) (s : Seller) :
    MethodResult :=
  if amount < 0 then
    (Except.error "Earnings amount cannot be negative", s)
  else
    (Except.ok (), { s with
      statistics :=
        if isPending then
          { s.statistics with
            pendingEarnings := s.statistics.pendingEarnings + amount }
        else
          { s.statistics with
            totalEarnings := s.statistics.totalEarnings + amount }
      lastActivityAt := some t })

/-- Embeds `sellerSchema.methods.recordWithdrawal(amount)`. -/
def recordWithdrawal (amount : ℚ) (t : Int) (s : Seller) : MethodResult :=
  if amount < 0 then
    (Except.error "Withdrawal amount cannot be negative", s)
  else if amount > s.statistics.totalEarnings then
    (Except.error "Insufficient earnings for withdrawal", s)
  else
    (Except.ok (), { s with
      statistics := { s.statistics with
        totalEarnings := s.statistics.totalEarnings - amount
        withdrawnAmount := s.statistics.withdrawnAmount + amount }
      lastActivityAt := some t })

/-- Embeds `sellerSchema.methods.markDocumentAsVerified(documentType)`. -/
def markDocumentAsVerified (documentType : String) (t : Int) (s : Seller) :
    MethodResult :=
  if documentType ≠ "gst" ∧ documentType ≠ "pan" ∧ documentType ≠ "bank" ∧
      documentType ≠ "address" then
    (Except.error "Invalid document type. Must be one of: gst, pan, bank, address", s)
  else
    let dv := s.documentVerification
    let dv :=
      if documentType = "gst" then { dv with gstVerified := true }
      else if documentType = "pan" then { dv with panVerified := true }
      else if documentType = "bank" then { dv with bankVerified := true }
      else { dv with addressVerified := true }
    let s1 := { s with
      documentVerification := { dv with documentVerifiedAt := some t } }
    let s2 :=
      if documentType = "bank" then
        { s1 with bankDetails := { s1.bankDetails with
            isVerified := true
            verifiedAt := some t } }
      else s1
    (Except.ok (), { s2 with lastActivityAt := some t })

/-- Embeds `sellerSchema.virtual('isEligibleForPayout')`. -/
def isEligibleForPayout (s : Seller) : Bool :=
  decide (s.status = .approved) && s.isActive &&
    s.documentVerification.bankVerified &&
    decide (s.statistics.totalEarnings > 0)

/-- Result of `getEligibility()`. -/
structure Eligibility where
  canListProducts : Bool
  canAcceptOrders : Bool
  canWithdrawEarnings : Bool
  canUseCOD : Bool
  canAcceptDropship : Bool
  deriving Repr, DecidableEq

/-- Embeds `sellerSchema.methods.getEligibility()`. -/
def getEligibility (s : Seller) : Eligibility :=
  { canListProducts := decide (s.status = .approved) && s.isActive
    canAcceptOrders := decide (s.status = .approved) && s.isActive
    canWithdrawEarnings := isEligibleForPayout s
    canUseCOD := s.codEnabled && decide (s.status = .approved)
    canAcceptDropship :=
      decide (s.businessType = .dropship) && decide (s.status = .approved) }

/-- A concrete seller used by witnesses: approved, active, bank
verified, with some earnings. -/
def seller0 : Seller :=
  { businessType := .dropship
    commissionRate := 5
    codEnabled := false
    codCommissionRate := 0
    status := .approved
    statusReason := none
    statusChangedAt := none
    statusChangedBy := none
    bankDetails := {}
    statistics := { totalProducts := 10, activeProducts := 7, totalEarnings := 100,
                    withdrawnAmount := 20, averageRating := 0, totalRatings := 0 }
    documentVerification := { bankVerified := true }
    approvedAt := none
    lastActivityAt := none
    suspendedUntil := none
    isActive := true }

/-- A seller with zero rating statistics, the start state of the rating
sequence in the spec. -/
def ratingSeller0 : Seller :=
  { seller0 with statistics := { seller0.statistics with
      averageRating := 0, totalRatings := 0 } }

/-- State after `updateRating(4)` on `ratingSeller0`. -/
def ratingSeller1 : Seller :=
  (updateRating 4 true 0 ratingSeller0).snd

/-- State after the subsequent `updateRating(5)`. -/
def ratingSeller2 : Seller :=
  (updateRating 5 true 0 ratingSeller1).snd

/-- C1: `getEligibility().canWithdrawEarnings` is true iff
status = approved ∧ isActive ∧ bankVerified ∧ totalEarnings > 0, for
every seller state. -/
theorem canWithdrawEarnings_iff (s : Seller) :
    (getEligibility s).canWithdrawEarnings = true ↔
      (s.status = SStatus.approved ∧ s.isActive = true ∧
        s.documentVerification.bankVerified = true ∧
        s.statistics.totalEarnings > 0) := by
  simp [getEligibility, isEligibleForPayout, and_assoc]

/-- C5: for every initial state, `approve(admin)` then
`suspend(admin, 7, "policy")` then `unsuspend(admin)` ends with
status = approved, suspendedUntil = null and isActive = true. -/
theorem approve_suspend_unsuspend_final (s : Seller) (admin : String)
    (t1 t2 t3 : Int) :
    ((unsuspend admin t3
      ((suspend admin 7 (some "policy") t2
        ((approve admin none t1 s).snd)).snd)).snd.status = SStatus.approved) ∧
    ((unsuspend admin t3
      ((suspend admin 7 (some "policy") t2
        ((approve admin none t1 s).snd)).snd)).snd.suspendedUntil = none) ∧
    ((unsuspend admin t3
      ((suspend admin 7 (some "policy") t2
        ((approve admin none t1 s).snd)).snd)).snd.isActive = true) := by
  simp [approve, suspend, unsuspend]

/-- C10: `unsuspend` checks nothing about the current status: from every
seller state (blocked and pending included) it succeeds and sets
status = approved, suspendedUntil = null and isActive = true. -/
theorem unsuspend_unconditional (s : Seller) (actor : String) (t : Int) :
    (unsuspend actor t s).fst = Except.ok () ∧
    (unsuspend actor t s).snd.status = SStatus.approved ∧
    (unsuspend actor t s).snd.suspendedUntil = none ∧
    (unsuspend actor t s).snd.isActive = true := by
  simp [unsuspend]

/-- C8: for every input object, `updateBankDetails` forces
`bankDetails.isVerified = false` and `bankDetails.verifiedAt = null`,
even when the input sets `isVerified` to true. -/
theorem updateBankDetails_resets_verification (bankData : BankDetailsUpdate)
    (t : Int) (s : Seller) :
    (updateBankDetails bankData t s).snd.bankDetails.isVerified = false ∧
    (updateBankDetails bankData t s).snd.bankDetails.verifiedAt = none := by
  simp [updateBankDetails]

/-- C7: for every prior value of the product counters and every
`n ≥ 0`, `decrementProductCount(n)` sets each counter to
`max(0, value - n)`, hence leaves both `≥ 0`. -/
theorem decrementProductCount_clamped (n : ℚ) (t : Int) (s : Seller)
    (h : 0 ≤ n) :
    (decrementProductCount n t s).snd.statistics.totalProducts =
      max 0 (s.statistics.totalProducts - n) ∧
    (decrementProductCount n t s).snd.statistics.activeProducts =
      max 0 (s.statistics.activeProducts - n) ∧
    0 ≤ (decrementProductCount n t s).snd.statistics.totalProducts ∧
    0 ≤ (decrementProductCount n t s).snd.statistics.activeProducts := by
  refine ⟨rfl, rfl, ?_, ?_⟩ <;> simp [decrementProductCount]

/-- Closed instance of `decrementProductCount_clamped` at `n = 3` on a
concrete seller. -/
theorem decrementProductCount_clamped_witness :
    0 ≤ (3 : ℚ) ∧
    ((decrementProductCount 3 0 seller0).snd.statistics.totalProducts =
        max 0 (seller0.statistics.totalProducts - 3) ∧
      (decrementProductCount 3 0 seller0).snd.statistics.activeProducts =
        max 0 (seller0.statistics.activeProducts - 3) ∧
      0 ≤ (decrementProductCount 3 0 seller0).snd.statistics.totalProducts ∧
      0 ≤ (decrementProductCount 3 0 seller0).snd.statistics.activeProducts) :=
  ⟨by norm_num, decrementProductCount_clamped 3 0 seller0 (by norm_num)⟩

/-- C6: `updateCommissionRate(r)` succeeds iff `0 ≤ r ≤ 100`, and after a
successful call `commissionRate ∈ [0,100]` holds. -/
theorem updateCommissionRate_range (r : ℚ) (actor : String) (t : Int) (s : Seller) :
    ((updateCommissionRate r actor t s).fst = Except.ok () ↔ (0 ≤ r ∧ r ≤ 100)) ∧
    (0 ≤ r → r ≤ 100 →
      0 ≤ (updateCommissionRate r actor t s).snd.commissionRate ∧
      (updateCommissionRate r actor t s).snd.commissionRate ≤ 100) := by
  unfold updateCommissionRate
  by_cases h : r < 0 ∨ r > 100
  · rw [if_pos h]
    constructor
    · simp only [Prod.fst]
      constructor
      · intro hok
        exact absurd hok (by simp)
      · rintro ⟨h0, h100⟩
        rcases h with h' | h' <;> linarith
    · intro h0 h100
      rcases h with h' | h' <;> linarith
  · rw [if_neg h]
    push_neg at h
    exact ⟨by simp [h.1, h.2], fun _ _ => ⟨h.1, h.2⟩⟩

/-- Closed instance of `updateCommissionRate_range` at `r = 50`. -/
theorem updateCommissionRate_range_witness :
    (0 ≤ (50 : ℚ) ∧ (50 : ℚ) ≤ 100) ∧
    (0 ≤ (updateCommissionRate 50 "admin" 0 seller0).snd.commissionRate ∧
      (updateCommissionRate 50 "admin" 0 seller0).snd.commissionRate ≤ 100) :=
  ⟨⟨by norm_num, by norm_num⟩,
    (updateCommissionRate_range 50 "admin" 0 seller0).2 (by norm_num) (by norm_num)⟩

/-- C4: `recordWithdrawal(amount)` raises iff `amount < 0` or
`amount > totalEarnings`; for every `amount ∈ [0, totalEarnings]` it
succeeds, decreasing `totalEarnings` and increasing `withdrawnAmount`
by `amount`. -/
theorem recordWithdrawal_correct (amount : ℚ) (t : Int) (s : Seller) :
    ((recordWithdrawal amount t s).fst ≠ Except.ok () ↔
      (amount < 0 ∨ amount > s.statistics.totalEarnings)) ∧
    (0 ≤ amount → amount ≤ s.statistics.totalEarnings →
      (recordWithdrawal amount t s).fst = Except.ok () ∧
      (recordWithdrawal amount t s).snd.statistics.totalEarnings =
        s.statistics.totalEarnings - amount ∧
      (recordWithdrawal amount t s).snd.statistics.withdrawnAmount =
        s.statistics.withdrawnAmount + amount) := by
  unfold recordWithdrawal
  by_cases h1 : amount < 0
  · rw [if_pos h1]
    refine ⟨⟨fun _ => Or.inl h1, fun _ => by simp⟩, fun h0 _ => absurd h1 (not_lt.mpr h0)⟩
  · rw [if_neg h1]
    by_cases h2 : amount > s.statistics.totalEarnings
    · rw [if_pos h2]
      refine ⟨⟨fun _ => Or.inr h2, fun _ => by simp⟩,
        fun _ hle => absurd h2 (not_lt.mpr hle)⟩
    · rw [if_neg h2]
      refine ⟨⟨fun hne => absurd rfl hne, ?_⟩, fun _ _ => ⟨rfl, rfl, rfl⟩⟩
      rintro (h | h)
      · exact absurd h h1
      · exact absurd h h2

/-- Closed instance of `recordWithdrawal_correct` at `amount = 30` on a
seller with `totalEarnings = 100`, `withdrawnAmount = 20`. -/
theorem recordWithdrawal_correct_witness :
    (0 ≤ (30 : ℚ) ∧ (30 : ℚ) ≤ seller0.statistics.totalEarnings) ∧
    ((recordWithdrawal 30 0 seller0).fst = Except.ok () ∧
      (recordWithdrawal 30 0 seller0).snd.statistics.totalEarnings =
        seller0.statistics.totalEarnings - 30 ∧
      (recordWithdrawal 30 0 seller0).snd.statistics.withdrawnAmount =
        seller0.statistics.withdrawnAmount + 30) :=
  ⟨⟨by norm_num, by norm_num [seller0]⟩,
    (recordWithdrawal_correct 30 0 seller0).2 (by norm_num) (by norm_num [seller0])⟩

/-- C9: `block` raises when the reason is absent or empty, leaving the
entity unchanged; with a non-empty reason it succeeds and sets
status = blocked and isActive = false. -/
theorem block_reason_required (actor : String) (reason : Option String) (t : Int)
    (s : Seller) :
    ((reason = none ∨ reason = some "") →
      (block actor reason t s).fst ≠ Except.ok () ∧
      (block actor reason t s).snd = s) ∧
    (∀ str, reason = some str → str ≠ "" →
      (block actor reason t s).fst = Except.ok () ∧
      (block actor reason t s).snd.status = SStatus.blocked ∧
      (block actor reason t s).snd.isActive = false) := by
  constructor
  · rintro (rfl | rfl) <;> simp [block, strTruthy]
  · rintro str rfl hne
    simp [block, strTruthy, hne]

/-- Closed instance of `block_reason_required`: empty reason rejected
with the entity unchanged, reason "policy" blocks the seller. -/
theorem block_reason_required_witness :
    ((block "admin" (some "") 0 seller0).fst ≠ Except.ok () ∧
      (block "admin" (some "") 0 seller0).snd = seller0) ∧
    ((block "admin" (some "policy") 0 seller0).fst = Except.ok () ∧
      (block "admin" (some "policy") 0 seller0).snd.status = SStatus.blocked ∧
      (block "admin" (some "policy") 0 seller0).snd.isActive = false) :=
  ⟨(block_reason_required "admin" (some "") 0 seller0).1 (Or.inr rfl),
    (block_reason_required "admin" (some "policy") 0 seller0).2 "policy" rfl
      (by decide)⟩

/-- C3: when `newRating ∈ [0,5]`, `updateRating` replaces the average by
the running mean rounded half-up at the 2nd decimal and increments
`totalRatings`; on the concrete sequence from zero statistics,
`updateRating(4)` yields `{4.00, 1}` and then `updateRating(5)` yields
`{4.50, 2}`. -/
theorem updateRating_runningMean (r : ℚ) (t : Int) (s : Seller)
    (h0 : 0 ≤ r) (h5 : r ≤ 5) :
    ((updateRating r true t s).fst = Except.ok () ∧
      (updateRating r true t s).snd.statistics.averageRating =
        roundTo2 ((s.statistics.averageRating * s.statistics.totalRatings + r) /
          (s.statistics.totalRatings + 1)) ∧
      (updateRating r true t s).snd.statistics.totalRatings =
        s.statistics.totalRatings + 1) ∧
    (ratingSeller1.statistics.averageRating = 4 ∧
      ratingSeller1.statistics.totalRatings = 1 ∧
      ratingSeller2.statistics.averageRating = 9 / 2 ∧
      ratingSeller2.statistics.totalRatings = 2) := by
  have hguard : ¬(r < 0 ∨ r > 5) := by
    push_neg
    exact ⟨h0, h5⟩
  constructor
  · unfold updateRating
    rw [if_neg hguard]
    exact ⟨rfl, rfl, rfl⟩
  · refine ⟨?_, ?_, ?_, ?_⟩ <;>
      norm_num [ratingSeller2, ratingSeller1, ratingSeller0, seller0, updateRating,
        roundTo2, jsRound]

/-- Closed instance of `updateRating_runningMean` at `newRating = 4`. -/
theorem updateRating_runningMean_witness :
    (0 ≤ (4 : ℚ) ∧ (4 : ℚ) ≤ 5) ∧
    (((updateRating 4 true 0 ratingSeller0).fst = Except.ok () ∧
      (updateRating 4 true 0 ratingSeller0).snd.statistics.averageRating =
        roundTo2 ((ratingSeller0.statistics.averageRating *
          ratingSeller0.statistics.totalRatings + 4) /
          (ratingSeller0.statistics.totalRatings + 1)) ∧
      (updateRating 4 true 0 ratingSeller0).snd.statistics.totalRatings =
        ratingSeller0.statistics.totalRatings + 1) ∧
    (ratingSeller1.statistics.averageRating = 4 ∧
      ratingSeller1.statistics.totalRatings = 1 ∧
      ratingSeller2.statistics.averageRating = 9 / 2 ∧
      ratingSeller2.statistics.totalRatings = 2)) :=
  ⟨⟨by norm_num, by norm_num⟩,
    updateRating_runningMean 4 0 ratingSeller0 (by norm_num) (by norm_num)⟩

/-- C2 counterexample: `updateCODSettings(true, 150)` on a seller with
`codEnabled = false` raises the range error, yet the entity is not left
unchanged — `codEnabled` has already been set to `true` before the
throw, because the assignment precedes the validation in the source. -/
theorem updateCODSettings_mutates_before_raise :
    (updateCODSettings true (some 150) 0 seller0).fst ≠ Except.ok () ∧
    seller0.codEnabled = false ∧
    (updateCODSettings true (some 150) 0 seller0).snd.codEnabled = true := by
  refine ⟨?_, rfl, ?_⟩
  · intro hcontra
    norm_num [updateCODSettings] at hcontra
    exact Except.noConfusion hcontra
  · norm_num [updateCODSettings]

/-- C2 amended: for `block`, `updateCommissionRate`, `updateRating`,
`recordWithdrawal`, `addEarnings` and `markDocumentAsVerified`, every
input that raises does so before any mutation and leaves the entity
unchanged; `updateCODSettings(enabled, rate)` with `rate ∉ [0,100]`
raises and leaves every field unchanged except `codEnabled`, which has
already been set to `enabled`. -/
theorem invalidArgument_entity_state (t : Int) (s : Seller) (actor : String)
    (reason : Option String) (rate codRate ratingVal amt : ℚ)
    (enabled pend : Bool) (docType : String) :
    ((reason = none ∨ reason = some "") →
      (block actor reason t s).fst ≠ Except.ok () ∧
      (block actor reason t s).snd = s) ∧
    ((rate < 0 ∨ rate > 100) →
      (updateCommissionRate rate actor t s).fst ≠ Except.ok () ∧
      (updateCommissionRate rate actor t s).snd = s) ∧
    ((ratingVal < 0 ∨ ratingVal > 5) →
      (updateRating ratingVal true t s).fst ≠ Except.ok () ∧
      (updateRating ratingVal true t s).snd = s) ∧
    ((amt < 0 ∨ amt > s.statistics.totalEarnings) →
      (recordWithdrawal amt t s).fst ≠ Except.ok () ∧
      (recordWithdrawal amt t s).snd = s) ∧
    (amt < 0 →
      (addEarnings amt pend t s).fst ≠ Except.ok () ∧
      (addEarnings amt pend t s).snd = s) ∧
    ((docType ≠ "gst" ∧ docType ≠ "pan" ∧ docType ≠ "bank" ∧
        docType ≠ "address") →
      (markDocumentAsVerified docType t s).fst ≠ Except.ok () ∧
      (markDocumentAsVerified docType t s).snd = s) ∧
    ((codRate < 0 ∨ codRate > 100) →
      (updateCODSettings enabled (some codRate) t s).fst ≠ Except.ok () ∧
      (updateCODSettings enabled (some codRate) t s).snd =
        { s with codEnabled := enabled }) := by
  refine ⟨?_, ?_, ?_, ?_, ?_, ?_, ?_⟩
  · rintro (rfl | rfl) <;> simp [block, strTruthy]
  · intro h
    unfold updateCommissionRate
    rw [if_pos h]
    simp
  · intro h
    unfold updateRating
    rw [if_pos h]
    simp
  · rcases Classical.em (amt < 0) with h1 | h1
    · intro _
      unfold recordWithdrawal
      rw [if_pos h1]
      simp
    · rintro (h | h)
      · exact absurd h h1
      · unfold recordWithdrawal
        rw [if_neg h1, if_pos h]
        simp
  · intro h
    unfold addEarnings
    rw [if_pos h]
    simp
  · intro h
    unfold markDocumentAsVerified
    rw [if_pos h]
    simp
  · intro h
    unfold updateCODSettings
    simp only
    rw [if_pos h]
    simp

/-- Closed instance of `invalidArgument_entity_state` with every
hypothesis discharged at a concrete raising input. -/
theorem invalidArgument_entity_state_witness :
    ((block "admin" (some "") 0 seller0).fst ≠ Except.ok () ∧
      (block "admin" (some "") 0 seller0).snd = seller0) ∧
    ((updateCommissionRate 150 "admin" 0 seller0).fst ≠ Except.ok () ∧
      (updateCommissionRate 150 "admin" 0 seller0).snd = seller0) ∧
    ((updateRating 6 true 0 seller0).fst ≠ Except.ok () ∧
      (updateRating 6 true 0 seller0).snd = seller0) ∧
    ((recordWithdrawal (-1) 0 seller0).fst ≠ Except.ok () ∧
      (recordWithdrawal (-1) 0 seller0).snd = seller0) ∧
    ((addEarnings (-1) true 0 seller0).fst ≠ Except.ok () ∧
      (addEarnings (-1) true 0 seller0).snd = seller0) ∧
    ((markDocumentAsVerified "aadhaar" 0 seller0).fst ≠ Except.ok () ∧
      (markDocumentAsVerified "aadhaar" 0 seller0).snd = seller0) ∧
    ((updateCODSettings true (some 150) 0 seller0).fst ≠ Except.ok () ∧
      (updateCODSettings true (some 150) 0 seller0).snd =
        { seller0 with codEnabled := true }) := by
  have h := invalidArgument_entity_state 0 seller0 "admin" (some "") 150 150 6 (-1)
    true true "aadhaar"
  exact ⟨h.1 (Or.inr rfl), h.2.1 (by norm_num), h.2.2.1 (by norm_num),
    h.2.2.2.1 (by norm_num), h.2.2.2.2.1 (by norm_num),
    h.2.2.2.2.2.1 (by decide), h.2.2.2.2.2.2 (by norm_num)⟩
